import Mathlib

/-!
# CropMind edge irrigation controller — verification development

Shallow embedding of the edge decision engine of the CropMind repository
(`src/edge/main.go`) together with the gate-command wire schema of its
collaborators (the simulator's `GateCommand` struct and `handleMessage`).

Modelling conventions:

* Go `float64` moisture values are modelled as `ℚ`.  The engine only
  compares values against the thresholds `40.0` and `70.0`, both exactly
  representable, and performs no arithmetic on them, so the order
  comparisons agree with IEEE semantics on all exactly representable
  inputs.
* Go `time.Time` / `time.Duration` are modelled as `Int` seconds.
  `time.Time{}` (the zero time) is modelled as instant `0`;
  `time.Since(t)` at wall-clock instant `now` is `now - t`;
  `commandCooldown = 30 * time.Second` is the integer `30`.  The several
  `time.Now()` calls made while one reading is processed are modelled as
  the same instant `now`.
* The Go map `gateStates : map[int]*GateState` is modelled as a function
  `Int → Option GateState`; `none` is an absent key, whose dereference in
  Go would be a nil-pointer panic, modelled by an `Option.none` result of
  the evaluation function.
* `sendGateCommand` publishes a command as a side effect; the embedding
  returns the list of commands emitted by one evaluation.
-/

namespace CropMind

/-- `GateState` (src/edge/main.go 28-32): per-gate mutable record. -/
structure GateState where
  gateID : Int
  isOpen : Bool
  lastCommand : Int
deriving DecidableEq

/-- `dryThreshold = 40.0` (src/edge/main.go 44): below this, open the gate. -/
def dryThreshold : ℚ := 40

/-- `wetThreshold = 70.0` (src/edge/main.go 45): above this, close the gate. -/
def wetThreshold : ℚ := 70

/-- `commandCooldown = 30 * time.Second` (src/edge/main.go 46), in seconds. -/
def commandCooldown : Int := 30

/-- The entries of the Go map literal `sensorToGateMap`
(src/edge/main.go 50-62): gate 1 controls sensors 9001-9019 and gate 2
controls sensors 9020-9038. -/
def sensorToGateList : List (Int × Int) :=
  [(9001, 1), (9002, 1), (9003, 1), (9004, 1), (9005, 1),
   (9006, 1), (9007, 1), (9008, 1), (9009, 1), (9010, 1),
   (9011, 1), (9012, 1), (9013, 1), (9014, 1), (9015, 1),
   (9016, 1), (9017, 1), (9018, 1), (9019, 1),
   (9020, 2), (9021, 2), (9022, 2), (9023, 2), (9024, 2),
   (9025, 2), (9026, 2), (9027, 2), (9028, 2), (9029, 2),
   (9030, 2), (9031, 2), (9032, 2), (9033, 2), (9034, 2),
   (9035, 2), (9036, 2), (9037, 2), (9038, 2)]

/-- Lookup in the Go map `sensorToGateMap` with comma-ok form
(`gateID, exists := sensorToGateMap[sensorID]`, src/edge/main.go 137). -/
def sensorToGateMap (sensorID : Int) : Option Int :=
  sensorToGateList.lookup sensorID

/-- The `gateStates` map, `Int → Option GateState`. -/
abbrev GateStore := Int → Option GateState

/-- `initializeGateStates` (src/edge/main.go 71-80): gates 1..22 are
created, each `IsOpen = false` and `LastCommand = time.Time{}` (the zero
time, modelled as instant 0); no other key is present. -/
def initializeGateStates : GateStore := fun gateID =>
  if 1 ≤ gateID ∧ gateID ≤ 22 then
    some { gateID := gateID, isOpen := false, lastCommand := 0 }
  else
    none

/-- In-place mutation of the map entry `gateStates[gateID]` through its
pointer: the entry at `gateID` is replaced, every other key is untouched. -/
def updateGate (gates : GateStore) (gateID : Int) (gs : GateState) : GateStore :=
  fun g => if g = gateID then some gs else gates g

/-- Round a rational to the nearest integer with ties to even — the
rounding Go's `fmt` applies when formatting with `%.2f` (after scaling by
100). -/
def round2 (q : ℚ) : Int :=
  let x : ℚ := q * 100
  let f : Int := x.floor
  let frac : ℚ := x - (f : ℚ)
  if (1 : ℚ) / 2 < frac then f + 1
  else if frac < (1 : ℚ) / 2 then f
  else if f % 2 = 0 then f else f + 1

/-- Fixed-point rendering with two decimals, mirroring Go's `%.2f` verb
on the exactly-represented values the engine formats. -/
def fmt2 (q : ℚ) : String :=
  let n : Int := round2 q
  let m : Nat := n.natAbs
  let ip : Nat := m / 100
  let fp : Nat := m % 100
  (if n < 0 then "-" else "") ++ toString ip ++ "." ++
    (if fp < 10 then "0" ++ toString fp else toString fp)

/-- Reason string of an OPEN command, `fmt.Sprintf("Soil moisture %.2f%%
below threshold %.2f%%", moistureLevel, dryThreshold)`
(src/edge/main.go 169). -/
def belowReason (moistureLevel : ℚ) : String :=
  "Soil moisture " ++ fmt2 moistureLevel ++ "% below threshold " ++
    fmt2 dryThreshold ++ "%"

/-- Reason string of a CLOSE command, `fmt.Sprintf("Soil moisture %.2f%%
above threshold %.2f%%", moistureLevel, wetThreshold)`
(src/edge/main.go 176). -/
def aboveReason (moistureLevel : ℚ) : String :=
  "Soil moisture " ++ fmt2 moistureLevel ++ "% above threshold " ++
    fmt2 wetThreshold ++ "%"

/-- The value the edge hands to `sendGateCommand` and marshals
(src/edge/main.go 190-199): gate id, command string ("OPEN"/"CLOSE"),
reason, and the publish timestamp. -/
structure EdgeGateCommand where
  gateID : Int
  command : String
  reason : String
  timestamp : Int
deriving DecidableEq

/-- `evaluateIrrigationNeeds` (src/edge/main.go 133-184).  Returns `none`
exactly when Go would dereference a nil `*GateState` (a sensor routed to a
gate id absent from `gateStates`); otherwise `some (gates', cmds)` with the
updated store and the commands emitted via `sendGateCommand` during this
evaluation. -/
def evaluateIrrigationNeeds (now : Int) (gates : GateStore) (sensorID : Int)
    (moistureLevel : ℚ) : Option (GateStore × List EdgeGateCommand) :=
  match sensorToGateMap sensorID with
  | none => some (gates, [])
  | some gateID =>
    match gates gateID with
    | none => none
    | some gate =>
      if now - gate.lastCommand < commandCooldown then
        some (gates, [])
      else if moistureLevel < dryThreshold ∧ gate.isOpen = false then
        some (updateGate gates gateID { gate with isOpen := true, lastCommand := now },
          [{ gateID := gateID, command := "OPEN",
             reason := belowReason moistureLevel, timestamp := now }])
      else if wetThreshold < moistureLevel ∧ gate.isOpen = true then
        some (updateGate gates gateID { gate with isOpen := false, lastCommand := now },
          [{ gateID := gateID, command := "CLOSE",
             reason := aboveReason moistureLevel, timestamp := now }])
      else
        some (gates, [])

/-!
## Basic lemmas about the routing table and the evaluation branches
-/

lemma lookup_mem : ∀ (l : List (Int × Int)) (k v : Int), l.lookup k = some v → (k, v) ∈ l := by
  intro l k v h
  induction l with
  | nil => simp [List.lookup] at h
  | cons p l ih =>
    obtain ⟨a, b⟩ := p
    rw [List.lookup] at h
    by_cases hk : k = a
    · subst hk
      simp only [beq_self_eq_true] at h
      obtain rfl : b = v := by simpa using h
      exact List.mem_cons_self _ _
    · have hba : (k == a) = false := beq_false_of_ne hk
      rw [hba] at h
      exact List.mem_cons_of_mem _ (ih h)

lemma route_gate_bounds {sid gid : Int} (h : sensorToGateMap sid = some gid) :
    gid = 1 ∨ gid = 2 := by
  have hm := lookup_mem _ _ _ h
  simp only [sensorToGateList, List.mem_cons, List.not_mem_nil, or_false,
    Prod.mk.injEq] at hm
  omega

/-- Every gate id the routing table can produce has a state record created
by `initializeGateStates`. -/
lemma route_initialized {sid gid : Int} (h : sensorToGateMap sid = some gid) :
    initializeGateStates gid =
      some { gateID := gid, isOpen := false, lastCommand := 0 } := by
  have hb := route_gate_bounds h
  rw [initializeGateStates, if_pos]
  omega

lemma evaluate_unmapped {sid : Int} (now : Int) (gates : GateStore) (v : ℚ)
    (h : sensorToGateMap sid = none) :
    evaluateIrrigationNeeds now gates sid v = some (gates, []) := by
  rw [evaluateIrrigationNeeds, h]

lemma evaluate_cooldown {now : Int} {gates : GateStore} {sid gid : Int} {gate : GateState}
    (v : ℚ) (h1 : sensorToGateMap sid = some gid) (h2 : gates gid = some gate)
    (h3 : now - gate.lastCommand < commandCooldown) :
    evaluateIrrigationNeeds now gates sid v = some (gates, []) := by
  rw [evaluateIrrigationNeeds, h1]
  simp only [h2, if_pos h3]

lemma evaluate_open {now : Int} {gates : GateStore} {sid gid : Int} {gate : GateState}
    {v : ℚ} (h1 : sensorToGateMap sid = some gid) (h2 : gates gid = some gate)
    (h3 : ¬ now - gate.lastCommand < commandCooldown)
    (h4 : v < dryThreshold) (h5 : gate.isOpen = false) :
    evaluateIrrigationNeeds now gates sid v =
      some (updateGate gates gid { gate with isOpen := true, lastCommand := now },
        [{ gateID := gid, command := "OPEN", reason := belowReason v,
           timestamp := now }]) := by
  rw [evaluateIrrigationNeeds, h1]
  simp only [h2, if_neg h3, if_pos (And.intro h4 h5)]

lemma evaluate_close {now : Int} {gates : GateStore} {sid gid : Int} {gate : GateState}
    {v : ℚ} (h1 : sensorToGateMap sid = some gid) (h2 : gates gid = some gate)
    (h3 : ¬ now - gate.lastCommand < commandCooldown)
    (h4 : wetThreshold < v) (h5 : gate.isOpen = true) :
    evaluateIrrigationNeeds now gates sid v =
      some (updateGate gates gid { gate with isOpen := false, lastCommand := now },
        [{ gateID := gid, command := "CLOSE", reason := aboveReason v,
           timestamp := now }]) := by
  have h4' : ¬ (v < dryThreshold ∧ gate.isOpen = false) := by
    rintro ⟨-, hfalse⟩
    rw [h5] at hfalse
    exact Bool.noConfusion hfalse
  rw [evaluateIrrigationNeeds, h1]
  simp only [h2, if_neg h3, if_neg h4', if_pos (And.intro h4 h5)]

lemma evaluate_noop {now : Int} {gates : GateStore} {sid gid : Int} {gate : GateState}
    {v : ℚ} (h1 : sensorToGateMap sid = some gid) (h2 : gates gid = some gate)
    (h3 : ¬ now - gate.lastCommand < commandCooldown)
    (h4 : ¬ (v < dryThreshold ∧ gate.isOpen = false))
    (h5 : ¬ (wetThreshold < v ∧ gate.isOpen = true)) :
    evaluateIrrigationNeeds now gates sid v = some (gates, []) := by
  rw [evaluateIrrigationNeeds, h1]
  simp only [h2, if_neg h3, if_neg h4, if_neg h5]

/-- Exhaustive description of one evaluation: either a silent no-op with
the store returned unchanged, or exactly one command emitted for the
routed gate after the cooldown has elapsed (flipping `isOpen` and stamping
`lastCommand := now`), or the nil-dereference case of a routed gate with
no state record. -/
lemma evaluate_cases (now : Int) (gates : GateStore) (sid : Int) (v : ℚ) :
    evaluateIrrigationNeeds now gates sid v = some (gates, []) ∨
    (∃ gid gate r, sensorToGateMap sid = some gid ∧ gates gid = some gate ∧
      gate.lastCommand + commandCooldown ≤ now ∧
      evaluateIrrigationNeeds now gates sid v =
        some (updateGate gates gid { gate with isOpen := !gate.isOpen, lastCommand := now },
          [{ gateID := gid, command := if gate.isOpen then "CLOSE" else "OPEN",
             reason := r, timestamp := now }])) ∨
    (∃ gid, sensorToGateMap sid = some gid ∧ gates gid = none ∧
      evaluateIrrigationNeeds now gates sid v = none) := by
  cases h1 : sensorToGateMap sid with
  | none => exact Or.inl (evaluate_unmapped now gates v h1)
  | some gid =>
    cases h2 : gates gid with
    | none =>
      refine Or.inr (Or.inr ⟨gid, rfl, h2, ?_⟩)
      rw [evaluateIrrigationNeeds, h1]
      simp only [h2]
    | some gate =>
      by_cases h3 : now - gate.lastCommand < commandCooldown
      · exact Or.inl (evaluate_cooldown v h1 h2 h3)
      · have hcool : gate.lastCommand + commandCooldown ≤ now := by omega
        by_cases h4 : v < dryThreshold ∧ gate.isOpen = false
        · refine Or.inr (Or.inl ⟨gid, gate, belowReason v, rfl, h2, hcool, ?_⟩)
          rw [h4.2]
          exact evaluate_open h1 h2 h3 h4.1 h4.2
        · by_cases h5 : wetThreshold < v ∧ gate.isOpen = true
          · refine Or.inr (Or.inl ⟨gid, gate, aboveReason v, rfl, h2, hcool, ?_⟩)
            rw [h5.2]
            exact evaluate_close h1 h2 h3 h5.1 h5.2
          · exact Or.inl (evaluate_noop h1 h2 h3 h4 h5)

/-!
## Sequences of readings

`handleSoilMoisture` calls `evaluateIrrigationNeeds` once per inbound
moisture reading; the mutex serializes those calls.  A run is the
serialized sequence of evaluations, each taken at the wall-clock instant
`now` at which its critical section executes.
-/

/-- One serialized invocation of `evaluateIrrigationNeeds`: the wall-clock
instant of the call plus the reading's sensor id and value. -/
structure MoistureReading where
  now : Int
  sensorID : Int
  value : ℚ

/-- Process a list of readings in order, threading the gate store and
collecting every emitted command; `none` if any single evaluation hits the
nil-dereference case. -/
def runReadings (gates : GateStore) :
    List MoistureReading → Option (GateStore × List EdgeGateCommand)
  | [] => some (gates, [])
  | r :: rs =>
    match evaluateIrrigationNeeds r.now gates r.sensorID r.value with
    | none => none
    | some (gates', cmds) =>
      match runReadings gates' rs with
      | none => none
      | some (gatesF, cmdsRest) => some (gatesF, cmds ++ cmdsRest)

/-- The subsequence of commands addressed to gate `g`, in emission order. -/
def cmdsFor (g : Int) (cmds : List EdgeGateCommand) : List EdgeGateCommand :=
  cmds.filter fun c => c.gateID == g

/-- The timestamps of a command list are each at least `commandCooldown`
after the previous one, the first at least `commandCooldown` after `t`. -/
def sepFrom (t : Int) : List EdgeGateCommand → Prop
  | [] => True
  | c :: l => t + commandCooldown ≤ c.timestamp ∧ sepFrom c.timestamp l

/-- The timestamp of the last command of the list, or `t` if it is empty. -/
def lastTs (t : Int) : List EdgeGateCommand → Int
  | [] => t
  | c :: l => lastTs c.timestamp l

/-- The action strings alternate, starting with the action that moves away
from state `b` (`"OPEN"` when `b = false`, i.e. the gate is closed). -/
def altFrom : Bool → List String → Prop
  | _, [] => True
  | b, a :: l => a = (if b then "CLOSE" else "OPEN") ∧ altFrom (!b) l

/-- The gate position reached from position `b` after `n` emitted
commands: each command flips the position. -/
def endOpen : Bool → Nat → Bool
  | b, 0 => b
  | b, n + 1 => endOpen (!b) n

lemma cmdsFor_cons_self {c : EdgeGateCommand} {g : Int} (h : c.gateID = g)
    (l : List EdgeGateCommand) : cmdsFor g (c :: l) = c :: cmdsFor g l := by
  simp [cmdsFor, List.filter_cons, h]

lemma cmdsFor_cons_ne {c : EdgeGateCommand} {g : Int} (h : c.gateID ≠ g)
    (l : List EdgeGateCommand) : cmdsFor g (c :: l) = cmdsFor g l := by
  simp [cmdsFor, List.filter_cons, h]

lemma updateGate_self (gates : GateStore) (gid : Int) (gs : GateState) :
    updateGate gates gid gs gid = some gs := by
  simp [updateGate]

lemma updateGate_ne {g gid : Int} (h : g ≠ gid) (gates : GateStore) (gs : GateState) :
    updateGate gates gid gs g = gates g := by
  simp [updateGate, h]

lemma sepFrom_le : ∀ (l : List EdgeGateCommand) (t : Int), sepFrom t l →
    ∀ c ∈ l, t + commandCooldown ≤ c.timestamp := by
  intro l
  induction l with
  | nil => intro t _ c hc; exact absurd hc (List.not_mem_nil c)
  | cons d l ih =>
    intro t h c hc
    simp only [sepFrom] at h
    have hC : (0 : Int) ≤ commandCooldown := by decide
    rcases List.mem_cons.mp hc with rfl | hc'
    · exact h.1
    · have := ih d.timestamp h.2 c hc'
      omega

lemma sepFrom_pairwise : ∀ (l : List EdgeGateCommand) (t : Int), sepFrom t l →
    l.Pairwise fun a b => a.timestamp + commandCooldown ≤ b.timestamp := by
  intro l
  induction l with
  | nil => intro t _; exact List.Pairwise.nil
  | cons d l ih =>
    intro t h
    simp only [sepFrom] at h
    exact List.Pairwise.cons (fun c hc => sepFrom_le l d.timestamp h.2 c hc)
      (ih d.timestamp h.2)

/-- Master invariant of a run, tracked per gate id `g`: a gate with no
state record stays absent and receives no command; a gate with a record
keeps one, its commands are `commandCooldown`-separated starting from its
`lastCommand`, its final `lastCommand` is the timestamp of its last
command (or the original one), and its command actions alternate starting
from its initial position, which each command flips. -/
lemma runReadings_invariant :
    ∀ (rs : List MoistureReading) (gates : GateStore)
      (p : GateStore × List EdgeGateCommand),
      runReadings gates rs = some p → ∀ g : Int,
      (gates g = none → p.1 g = none ∧ cmdsFor g p.2 = []) ∧
      (∀ gate, gates g = some gate →
        ∃ gateF, p.1 g = some gateF ∧
          sepFrom gate.lastCommand (cmdsFor g p.2) ∧
          gateF.lastCommand = lastTs gate.lastCommand (cmdsFor g p.2) ∧
          altFrom gate.isOpen ((cmdsFor g p.2).map EdgeGateCommand.command) ∧
          gateF.isOpen = endOpen gate.isOpen (cmdsFor g p.2).length) := by
  intro rs
  induction rs with
  | nil =>
    intro gates p h g
    simp only [runReadings, Option.some.injEq] at h
    obtain rfl : (gates, ([] : List EdgeGateCommand)) = p := h
    refine ⟨fun hnone => ⟨hnone, rfl⟩, fun gate hg => ⟨gate, hg, trivial, rfl, trivial, rfl⟩⟩
  | cons r rs ih =>
    intro gates p h g
    cases hev : evaluateIrrigationNeeds r.now gates r.sensorID r.value with
    | none =>
      simp only [runReadings, hev] at h
      exact Option.noConfusion h
    | some q =>
      obtain ⟨gates₁, cmds₁⟩ := q
      simp only [runReadings, hev] at h
      cases hrun : runReadings gates₁ rs with
      | none =>
        simp only [hrun] at h
        exact Option.noConfusion h
      | some pR =>
        obtain ⟨gatesF, cmdsR⟩ := pR
        simp only [hrun, Option.some.injEq] at h
        obtain rfl : (gatesF, cmds₁ ++ cmdsR) = p := h
        have ihg := ih gates₁ (gatesF, cmdsR) hrun g
        rcases evaluate_cases r.now gates r.sensorID r.value with hno |
          ⟨gid, gate0, r0, hroute, hgid, hcool, heq⟩ | ⟨gid, hroute, hgid, heq⟩
        · rw [hev] at hno
          have hno' := Option.some.inj hno
          obtain rfl : gates₁ = gates := congrArg Prod.fst hno'
          obtain rfl : cmds₁ = ([] : List EdgeGateCommand) := congrArg Prod.snd hno'
          simpa using ihg
        · rw [hev] at heq
          have heq' := Option.some.inj heq
          obtain rfl : gates₁ = updateGate gates gid
              { gate0 with isOpen := !gate0.isOpen, lastCommand := r.now } :=
            congrArg Prod.fst heq'
          obtain rfl : cmds₁ =
              [{ gateID := gid, command := if gate0.isOpen then "CLOSE" else "OPEN",
                 reason := r0, timestamp := r.now }] :=
            congrArg Prod.snd heq'
          constructor
          · intro hgnone
            have hne : g ≠ gid := by
              intro hgg
              rw [hgg, hgid] at hgnone
              exact Option.noConfusion hgnone
            have hrec := ihg.1 (by rw [updateGate_ne hne]; exact hgnone)
            refine ⟨hrec.1, ?_⟩
            have hcg :
                (EdgeGateCommand.mk gid (if gate0.isOpen then "CLOSE" else "OPEN") r0 r.now).gateID ≠ g :=
              fun hcge => hne hcge.symm
            rw [List.singleton_append, cmdsFor_cons_ne hcg]
            exact hrec.2
          · intro gate hg
            by_cases hgg : g = gid
            · subst hgg
              obtain rfl : gate0 = gate := by
                rw [hgid] at hg
                exact Option.some.inj hg
              obtain ⟨gateF, hF, hsep, hlast, halt, hopen⟩ :=
                ihg.2 { gate0 with isOpen := !gate0.isOpen, lastCommand := r.now }
                  (updateGate_self gates g _)
              have hcg :
                  (EdgeGateCommand.mk g (if gate0.isOpen then "CLOSE" else "OPEN") r0 r.now).gateID = g :=
                rfl
              refine ⟨gateF, hF, ?_, ?_, ?_, ?_⟩
              all_goals rw [List.singleton_append, cmdsFor_cons_self hcg]
              · exact ⟨hcool, hsep⟩
              · exact hlast
              · exact ⟨rfl, halt⟩
              · exact hopen
            · have hrec := ihg.2 gate (by rw [updateGate_ne hgg]; exact hg)
              obtain ⟨gateF, hF, hsep, hlast, halt, hopen⟩ := hrec
              have hcg :
                  (EdgeGateCommand.mk gid (if gate0.isOpen then "CLOSE" else "OPEN") r0 r.now).gateID ≠ g :=
                fun hcge => hgg hcge.symm
              refine ⟨gateF, hF, ?_, ?_, ?_, ?_⟩
              all_goals rw [List.singleton_append, cmdsFor_cons_ne hcg]
              exacts [hsep, hlast, halt, hopen]
        · rw [hev] at heq
          exact Option.noConfusion heq

/-!
## The wire payload and the command consumer's schema

The edge marshals the command as a `map[string]interface{}` with keys
`gate_id`, `command`, `reason`, `timestamp` (src/edge/main.go 192-199).
The simulator consumes it by unmarshalling into its `GateCommand` struct
with json tags `gate_id`, `action`, `timestamp` (src/unnamed/part_000
453-457) inside `handleMessage` (part_000 612-632).  JSON objects are
modelled as association lists of keys to values; `json.Unmarshal` ignores
unknown keys and leaves absent fields at their Go zero values.
-/

/-- A JSON scalar as used by these payloads. -/
inductive JVal where
  | jint (n : Int)
  | jstr (s : String)
deriving DecidableEq

/-- A flat JSON object: keys with scalar values. -/
abbrev JObj := List (String × JVal)

/-- The object `json.Marshal` produces for the edge's payload map
(src/edge/main.go 192-199); Go sorts map keys alphabetically:
`command`, `gate_id`, `reason`, `timestamp`. -/
def sendGateCommandPayload (c : EdgeGateCommand) : JObj :=
  [("command", JVal.jstr c.command),
   ("gate_id", JVal.jint c.gateID),
   ("reason", JVal.jstr c.reason),
   ("timestamp", JVal.jint c.timestamp)]

/-- `GateCommand` (src/unnamed/part_000 453-457 and src/unnamed/part_001):
the consumer-side struct with json tags `gate_id`, `action`, `timestamp`;
its `Action` is documented as `"OPEN" or "CLOSE"`. -/
structure GateCommand where
  gateID : Int
  action : String
  timestamp : Int
deriving DecidableEq

/-- Integer field extraction of `json.Unmarshal`: an absent key (or one of
the wrong kind) leaves the Go zero value `0`. -/
def jGetInt (o : JObj) (k : String) : Int :=
  match o.lookup k with
  | some (JVal.jint n) => n
  | _ => 0

/-- String field extraction of `json.Unmarshal`: an absent key (or one of
the wrong kind) leaves the Go zero value `""`. -/
def jGetStr (o : JObj) (k : String) : String :=
  match o.lookup k with
  | some (JVal.jstr s) => s
  | _ => ""

/-- `json.Unmarshal(msg.Payload(), &cmd)` into the consumer's
`GateCommand` (src/unnamed/part_000 614-617): each field is read through
its json tag; unknown keys in the payload are ignored. -/
def unmarshalGateCommand (o : JObj) : GateCommand :=
  { gateID := jGetInt o "gate_id",
    action := jGetStr o "action",
    timestamp := jGetInt o "timestamp" }

/-!
## Lock/publish event trace of one evaluation

A structural view of `evaluateIrrigationNeeds` recording only the mutex
operations and the blocking publish step.  `stateMutex.Lock()` is taken at
src/edge/main.go 144 with `defer stateMutex.Unlock()` at 145, so the lock
is held until the function returns; `sendGateCommand` (190-206) is called
at 169/176 from inside that critical section and performs
`client.Publish` followed by `token.Wait()`, which has no timeout
(`WaitTimeout` is not used), recorded as `publishWait false`.
-/

/-- An observable event of one evaluation: mutex acquire/release and a
publish followed by a wait (`hasTimeout` records whether the wait is
bounded). -/
inductive EdgeEvent where
  | lockAcquire
  | publishWait (hasTimeout : Bool)
  | lockRelease
deriving DecidableEq

/-- The event trace of `evaluateIrrigationNeeds` (src/edge/main.go
133-184): nothing before the routing lookup; the mutex around the whole
read-decide-(publish)-write sequence; `publishWait false` exactly when a
command is emitted.  In the nil-dereference case the deferred unlock still
runs during the panic. -/
def evaluateTrace (now : Int) (gates : GateStore) (sensorID : Int)
    (moistureLevel : ℚ) : List EdgeEvent :=
  match sensorToGateMap sensorID with
  | none => []
  | some gateID =>
    match gates gateID with
    | none => [EdgeEvent.lockAcquire, EdgeEvent.lockRelease]
    | some gate =>
      if now - gate.lastCommand < commandCooldown then
        [EdgeEvent.lockAcquire, EdgeEvent.lockRelease]
      else if moistureLevel < dryThreshold ∧ gate.isOpen = false then
        [EdgeEvent.lockAcquire, EdgeEvent.publishWait false, EdgeEvent.lockRelease]
      else if wetThreshold < moistureLevel ∧ gate.isOpen = true then
        [EdgeEvent.lockAcquire, EdgeEvent.publishWait false, EdgeEvent.lockRelease]
      else
        [EdgeEvent.lockAcquire, EdgeEvent.lockRelease]

/-- Checks, carrying the current lock depth, that every publish-wait in
the trace either has a bounded timeout or happens with no lock held —
the discipline the specification requires of the publish step. -/
def publishSafe (depth : Int) : List EdgeEvent → Bool
  | [] => true
  | EdgeEvent.lockAcquire :: tr => publishSafe (depth + 1) tr
  | EdgeEvent.lockRelease :: tr => publishSafe (depth - 1) tr
  | EdgeEvent.publishWait bounded :: tr =>
      (bounded || depth == 0) && publishSafe depth tr

/-!
## Startup

`main` (src/edge/main.go 237-279) runs `initializeGateStates`, connects to
the broker, prints the configuration and subscribes.  The only fatal exits
(`log.Fatalf`) are transport failures inside `connectMQTT` and
`Subscribe`.  `main` contains no comparison of `dryThreshold` against
`wetThreshold` and no check that gate ids referenced by `sensorToGateMap`
have a record in `gateStates`.
-/

/-- Whether `main` refuses to begin processing readings because of a
configuration inconsistency, as a function of the configuration values it
would have to inspect.  Translated from `main` (src/edge/main.go 237-279):
no such inspection exists — startup accepts every configuration, so this
is constantly `false`. -/
def mainRefusesConfig (_dry _wet : ℚ) (_routing : List (Int × Int))
    (_states : GateStore) : Bool :=
  false

/-!
## The claims
-/

/-- C1: for a reading that reaches the threshold step (zone resolved,
cooldown elapsed): if `value < dryThreshold` and the gate is closed, the
engine emits one OPEN command and sets `isOpen := true`; if
`value > wetThreshold` and the gate is open, it emits one CLOSE command
and sets `isOpen := false`; in every other case — including the dead zone
`dryThreshold ≤ value ≤ wetThreshold` and values exactly equal to a
threshold — it emits no command and returns the store unchanged, for any
prior state. -/
theorem threshold_step (now : Int) (gates : GateStore) (sid gid : Int) (v : ℚ)
    (gate : GateState) (h1 : sensorToGateMap sid = some gid)
    (h2 : gates gid = some gate)
    (h3 : ¬ now - gate.lastCommand < commandCooldown) :
    (v < dryThreshold → gate.isOpen = false →
      evaluateIrrigationNeeds now gates sid v =
        some (updateGate gates gid { gate with isOpen := true, lastCommand := now },
          [{ gateID := gid, command := "OPEN", reason := belowReason v,
             timestamp := now }])) ∧
    (wetThreshold < v → gate.isOpen = true →
      evaluateIrrigationNeeds now gates sid v =
        some (updateGate gates gid { gate with isOpen := false, lastCommand := now },
          [{ gateID := gid, command := "CLOSE", reason := aboveReason v,
             timestamp := now }])) ∧
    (¬ (v < dryThreshold ∧ gate.isOpen = false) →
      ¬ (wetThreshold < v ∧ gate.isOpen = true) →
      evaluateIrrigationNeeds now gates sid v = some (gates, [])) := by
  refine ⟨?_, ?_, ?_⟩
  · intro h4 h5
    exact evaluate_open h1 h2 h3 h4 h5
  · intro h4 h5
    exact evaluate_close h1 h2 h3 h4 h5
  · intro h4 h5
    exact evaluate_noop h1 h2 h3 h4 h5

/-- C2: a reading arriving while the zone's cooldown is still running
(`now − lastCommandAt < commandCooldown`) changes no state and emits no
command regardless of its value; consequently, over any run, the commands
emitted for a fixed gate are pairwise at least `commandCooldown` apart, so
at most one command per gate falls in any time window of length
`commandCooldown`. -/
theorem cooldown_debounce :
    (∀ (now : Int) (gates : GateStore) (sid : Int) (v : ℚ) (gid : Int)
        (gate : GateState), sensorToGateMap sid = some gid →
        gates gid = some gate → now - gate.lastCommand < commandCooldown →
        evaluateIrrigationNeeds now gates sid v = some (gates, [])) ∧
    (∀ (gates : GateStore) (rs : List MoistureReading)
        (p : GateStore × List EdgeGateCommand) (g : Int),
        runReadings gates rs = some p →
        (cmdsFor g p.2).Pairwise
          fun c₁ c₂ => c₁.timestamp + commandCooldown ≤ c₂.timestamp) := by
  constructor
  · intro now gates sid v gid gate h1 h2 h3
    exact evaluate_cooldown v h1 h2 h3
  · intro gates rs p g h
    have inv := runReadings_invariant rs gates p h g
    cases hg : gates g with
    | none => rw [(inv.1 hg).2]; exact List.Pairwise.nil
    | some gate =>
      obtain ⟨gateF, _, hsep, _, _, _⟩ := inv.2 gate hg
      exact sepFrom_pairwise _ _ hsep

/-- C3: over any run from the initial (all-closed) state, the commands
emitted for each gate strictly alternate starting with OPEN: the command
actions for gate `g` form the sequence OPEN, CLOSE, OPEN, CLOSE, …, so no
two consecutive commands for one gate carry the same action and the first
is always OPEN. -/
theorem command_alternation (rs : List MoistureReading)
    (p : GateStore × List EdgeGateCommand)
    (h : runReadings initializeGateStates rs = some p) (g : Int) :
    altFrom false ((cmdsFor g p.2).map EdgeGateCommand.command) := by
  have inv := runReadings_invariant rs initializeGateStates p h g
  cases hg : initializeGateStates g with
  | none =>
    rw [(inv.1 hg).2]
    exact trivial
  | some gate =>
    have hopen : gate.isOpen = false := by
      rw [initializeGateStates] at hg
      split at hg
      · obtain rfl := Option.some.inj hg
        rfl
      · exact Option.noConfusion hg
    obtain ⟨gateF, _, _, _, halt, _⟩ := inv.2 gate hg
    rw [hopen] at halt
    exact halt

/-- C7: a reading whose sensor id is not in the routing table is a normal
no-op: the store is returned unchanged (no `ZoneState` mutated), no
command is emitted, and no error is raised (the result is `some`, not the
panic case). -/
theorem unmapped_sensor_noop (now : Int) (gates : GateStore) (sid : Int) (v : ℚ)
    (h : sensorToGateMap sid = none) :
    evaluateIrrigationNeeds now gates sid v = some (gates, []) :=
  evaluate_unmapped now gates v h

/-- C8: over one processing step, a gate's `lastCommand` changes exactly
when a command addressed to that gate is emitted by the step; whenever no
command is emitted for it (unmapped sensor, cooldown, dead zone, or
already-in-state guard) its `lastCommand` is unchanged. -/
theorem lastCommand_iff_emit (now : Int) (gates : GateStore) (sid : Int) (v : ℚ)
    (p : GateStore × List EdgeGateCommand)
    (h : evaluateIrrigationNeeds now gates sid v = some p) (g : Int) :
    (∃ c ∈ p.2, c.gateID = g) ↔
      Option.map GateState.lastCommand (p.1 g) ≠
        Option.map GateState.lastCommand (gates g) := by
  rcases evaluate_cases now gates sid v with hno |
    ⟨gid, gate, r0, hroute, hgid, hcool, heq⟩ | ⟨gid, hroute, hgid, heq⟩
  · rw [h] at hno
    obtain rfl : (gates, ([] : List EdgeGateCommand)) = p := Option.some.inj hno.symm
    simp
  · rw [h] at heq
    obtain rfl := Option.some.inj heq
    dsimp only
    by_cases hgg : g = gid
    · subst hgg
      constructor
      · intro _
        rw [updateGate_self, hgid]
        intro hh
        have hinj := Option.some.inj (by simpa using hh)
        have hnow : now = gate.lastCommand := hinj
        have hC : (0 : Int) < commandCooldown := by decide
        omega
      · intro _
        exact ⟨_, List.mem_cons_self _ _, rfl⟩
    · constructor
      · rintro ⟨c, hc, hcg⟩
        rcases List.mem_singleton.mp hc with rfl
        exact (hgg hcg.symm).elim
      · intro hne
        rw [updateGate_ne hgg] at hne
        exact absurd rfl hne
  · rw [h] at heq
    exact Option.noConfusion heq

/-- C9: every gate state created at startup has `isOpen = false` and
`lastCommand` equal to the zero time (instant 0 in this model; Go's zero
`time.Time` lies centuries before any actual wall clock, which the
hypothesis `commandCooldown ≤ now` reflects), and therefore the very
first qualifying dry reading for a routed zone is never blocked by the
cooldown: it emits the OPEN command. -/
theorem initial_state_first_reading :
    (∀ g : Int, 1 ≤ g → g ≤ 22 →
      initializeGateStates g =
        some { gateID := g, isOpen := false, lastCommand := 0 }) ∧
    (∀ (sid gid now : Int) (v : ℚ), sensorToGateMap sid = some gid →
      commandCooldown ≤ now → v < dryThreshold →
      ∃ gates', evaluateIrrigationNeeds now initializeGateStates sid v =
        some (gates', [{ gateID := gid, command := "OPEN",
                         reason := belowReason v, timestamp := now }])) := by
  constructor
  · intro g h1 h2
    rw [initializeGateStates, if_pos]
    exact ⟨h1, h2⟩
  · intro sid gid now v hroute hcool hdry
    have hinit := route_initialized hroute
    refine ⟨_, evaluate_open hroute hinit ?_ hdry rfl⟩
    show ¬ now - (0 : Int) < commandCooldown
    omega

/-- C10: one processing step mutates at most the zone its sensor routes
to: the state of every gate the routing table does not map the reading's
sensor to is unchanged (in particular every gate when the sensor is
unmapped). -/
theorem frame_single_zone (now : Int) (gates : GateStore) (sid : Int) (v : ℚ)
    (p : GateStore × List EdgeGateCommand)
    (h : evaluateIrrigationNeeds now gates sid v = some p) (g : Int)
    (hg : sensorToGateMap sid ≠ some g) :
    p.1 g = gates g := by
  rcases evaluate_cases now gates sid v with hno |
    ⟨gid, gate, r0, hroute, hgid, hcool, heq⟩ | ⟨gid, hroute, hgid, heq⟩
  · rw [h] at hno
    obtain rfl : (gates, ([] : List EdgeGateCommand)) = p := Option.some.inj hno.symm
    rfl
  · rw [h] at heq
    obtain rfl := Option.some.inj heq
    have hne : g ≠ gid := by
      intro hh
      apply hg
      rw [hh]
      exact hroute
    exact updateGate_ne hne _ _
  · rw [h] at heq
    exact Option.noConfusion heq

/-- C4 (code bug): the OPEN command emitted for sensor 9001 at t = 1000,
once marshalled by the edge (keys `command`, `gate_id`, `reason`,
`timestamp`) and unmarshalled through the consumer's `GateCommand` schema
(keys `gate_id`, `action`, `timestamp`), loses its action: the decoded
`action` is the Go zero value `""`, not the emitted `"OPEN"` — and the
consumer schema has no reason field at all — while `gate_id` and
`timestamp` do survive. -/
theorem gate_command_roundtrip_bug :
    ∃ p c, evaluateIrrigationNeeds 1000 initializeGateStates 9001 25 = some p ∧
      p.2 = [c] ∧ c.command = "OPEN" ∧
      (unmarshalGateCommand (sendGateCommandPayload c)).gateID = c.gateID ∧
      (unmarshalGateCommand (sendGateCommandPayload c)).timestamp = c.timestamp ∧
      (unmarshalGateCommand (sendGateCommandPayload c)).action = "" :=
  ⟨_, _, rfl, rfl, rfl, rfl, rfl, rfl⟩

/-- C5 counterexample: at a concrete input that emits a command, the
evaluation's event trace contains an unbounded publish-and-wait strictly
inside the mutex critical section, violating the claimed discipline
(publish outside the lock, or with a bounded timeout). -/
theorem publish_inside_lock_cex :
    publishSafe 0 (evaluateTrace 1000 initializeGateStates 9001 25) = false := by
  decide

/-- C5 amended: the publish step of `evaluateIrrigationNeeds` is
`client.Publish` followed by `token.Wait()` with no timeout, executed
while the state mutex is held: every possible trace is empty (unmapped
sensor), a bare critical section, or a critical section containing the
unbounded publish-wait — never a publish outside the lock or with a
timeout.  The critical section otherwise performs only in-memory work. -/
theorem publish_under_lock (now : Int) (gates : GateStore) (sid : Int) (v : ℚ) :
    evaluateTrace now gates sid v = [] ∨
    evaluateTrace now gates sid v = [EdgeEvent.lockAcquire, EdgeEvent.lockRelease] ∨
    evaluateTrace now gates sid v =
      [EdgeEvent.lockAcquire, EdgeEvent.publishWait false, EdgeEvent.lockRelease] := by
  cases h1 : sensorToGateMap sid with
  | none =>
    refine Or.inl ?_
    simp [evaluateTrace, h1]
  | some gid =>
    cases h2 : gates gid with
    | none =>
      refine Or.inr (Or.inl ?_)
      simp [evaluateTrace, h1, h2]
    | some gate =>
      simp only [evaluateTrace, h1, h2]
      split_ifs
      · exact Or.inr (Or.inl rfl)
      · exact Or.inr (Or.inr rfl)
      · exact Or.inr (Or.inr rfl)
      · exact Or.inr (Or.inl rfl)

/-- C6 counterexample: instantiated with an inconsistent configuration
(`dry = 70 ≥ wet = 40`), `main` still does not refuse to begin
processing — startup contains no configuration validation. -/
theorem startup_no_validation_cex :
    (40 : ℚ) ≤ 70 ∧
    mainRefusesConfig 70 40 sensorToGateList initializeGateStates = false :=
  ⟨by norm_num, rfl⟩

/-- C6 amended: `main` performs no configuration validation (it refuses no
configuration whatsoever), but the compiled-in configuration is
consistent: `dryThreshold < wetThreshold`, and every gate id the routing
table can reference has a state record created at startup. -/
theorem startup_config_consistent :
    dryThreshold < wetThreshold ∧
    (∀ sid gid : Int, sensorToGateMap sid = some gid →
      ∃ gs, initializeGateStates gid = some gs) ∧
    (∀ (dry wet : ℚ) (routing : List (Int × Int)) (states : GateStore),
      mainRefusesConfig dry wet routing states = false) := by
  refine ⟨?_, ?_, fun _ _ _ _ => rfl⟩
  · norm_num [dryThreshold, wetThreshold]
  · intro sid gid h
    exact ⟨_, route_initialized h⟩

/-!
## Witnesses
-/

/-- Witness for C1: sensor 9001 routes to gate 1; from the initial store
at t = 1000 the cooldown has elapsed, and a reading of 25 (< 40, gate
closed) emits the OPEN command and opens the gate. -/
theorem threshold_step_witness :
    evaluateIrrigationNeeds 1000 initializeGateStates 9001 25 =
      some (updateGate initializeGateStates 1
              { gateID := 1, isOpen := true, lastCommand := 1000 },
            [{ gateID := 1, command := "OPEN", reason := belowReason 25,
               timestamp := 1000 }]) :=
  (threshold_step 1000 initializeGateStates 9001 1 25
      { gateID := 1, isOpen := false, lastCommand := 0 }
      (by decide) (by decide) (by decide)).1 (by decide) rfl

/-- Witness for C2: at t = 10 < 30 the initial-store cooldown (measured
from instant 0) blocks even the extreme reading 5; and a two-reading run
whose second reading is blocked by the cooldown yields a
`commandCooldown`-separated command list for gate 1. -/
theorem cooldown_debounce_witness :
    evaluateIrrigationNeeds 10 initializeGateStates 9001 5 =
      some (initializeGateStates, []) ∧
    ∃ p, runReadings initializeGateStates
        [⟨100, 9001, 25⟩, ⟨110, 9001, 80⟩] = some p ∧
      (cmdsFor 1 p.2).Pairwise
        (fun c₁ c₂ => c₁.timestamp + commandCooldown ≤ c₂.timestamp) :=
  ⟨cooldown_debounce.1 10 initializeGateStates 9001 5 1
      { gateID := 1, isOpen := false, lastCommand := 0 }
      (by decide) (by decide) (by decide),
   ⟨_, rfl, cooldown_debounce.2 initializeGateStates
      [⟨100, 9001, 25⟩, ⟨110, 9001, 80⟩] _ 1 rfl⟩⟩

/-- Witness for C3: a run that opens gate 1 at t = 100 (value 25) and
closes it at t = 200 (value 80) yields the alternating action sequence
OPEN, CLOSE for gate 1. -/
theorem command_alternation_witness :
    ∃ p, runReadings initializeGateStates
        [⟨100, 9001, 25⟩, ⟨200, 9001, 80⟩] = some p ∧
      altFrom false ((cmdsFor 1 p.2).map EdgeGateCommand.command) :=
  ⟨_, rfl, command_alternation [⟨100, 9001, 25⟩, ⟨200, 9001, 80⟩] _ rfl 1⟩

/-- Witness for C7: sensor 9999 is not in the routing table; processing
its reading returns the store unchanged with no command. -/
theorem unmapped_sensor_noop_witness :
    evaluateIrrigationNeeds 0 initializeGateStates 9999 50 =
      some (initializeGateStates, []) :=
  unmapped_sensor_noop 0 initializeGateStates 9999 50 (by decide)

/-- Witness for C8 at a concrete step that emits a command for gate 1. -/
theorem lastCommand_iff_emit_witness :
    ∃ p, evaluateIrrigationNeeds 1000 initializeGateStates 9001 25 = some p ∧
      ((∃ c ∈ p.2, c.gateID = 1) ↔
        Option.map GateState.lastCommand (p.1 1) ≠
          Option.map GateState.lastCommand (initializeGateStates 1)) :=
  ⟨_, rfl, lastCommand_iff_emit 1000 initializeGateStates 9001 25 _ rfl 1⟩

/-- Witness for C9: gate 2 starts closed at the zero time, and the first
qualifying dry reading (sensor 9020, value 25, t = 1000) opens it. -/
theorem initial_state_first_reading_witness :
    initializeGateStates 2 =
      some { gateID := 2, isOpen := false, lastCommand := 0 } ∧
    ∃ gates', evaluateIrrigationNeeds 1000 initializeGateStates 9020 25 =
      some (gates', [{ gateID := 2, command := "OPEN",
                       reason := belowReason 25, timestamp := 1000 }]) :=
  ⟨initial_state_first_reading.1 2 (by decide) (by decide),
   initial_state_first_reading.2 9020 2 1000 25 (by decide) (by decide) (by decide)⟩

/-- Witness for C10: processing sensor 9001 (gate 1) leaves gate 2's
state untouched. -/
theorem frame_single_zone_witness :
    ∃ p, evaluateIrrigationNeeds 1000 initializeGateStates 9001 25 = some p ∧
      p.1 2 = initializeGateStates 2 :=
  ⟨_, rfl, frame_single_zone 1000 initializeGateStates 9001 25 _ rfl 2 (by decide)⟩

/-- Witness for C6 (amended): gate 1, referenced by the routing table via
sensor 9001, has a state record at startup. -/
theorem startup_config_consistent_witness :
    ∃ gs, initializeGateStates 1 = some gs :=
  startup_config_consistent.2.1 9001 1 (by decide)

end CropMind
